import Mathlib

/-!
Shallow embedding of the geo-gpt geocoding library (src/geo_gpt), for checking
the natural-language specification against the code.

External collaborators (pycountry, the pgeocode dataset, the generative-model
client) are modelled as oracle parameters: each Lean definition mirrors the
control flow of the corresponding Python function, with the collaborator's
answer supplied as an argument.  Python floats are modelled as rationals for
data fields (decidable comparisons) and as reals where trigonometry is
involved (the haversine fallback).  A Python exception escaping a function is
modelled as an Except.error result.
-/

namespace GeoGpt

/-- ASCII uppercasing of one character (Python str.upper on the ASCII
range, which is all the code applies it to: ISO country codes). -/
def charUpper (c : Char) : Char :=
  if ('a' ≤ c ∧ c ≤ 'z') then Char.ofNat (c.toNat - 32) else c

/-- ASCII lowercasing of one character (Python str.lower on the ASCII
range). -/
def charLower (c : Char) : Char :=
  if ('A' ≤ c ∧ c ≤ 'Z') then Char.ofNat (c.toNat + 32) else c

/-- Python str.upper, modelled characterwise. -/
def strUpper (s : String) : String := ⟨s.data.map charUpper⟩

/-- Python str.lower, modelled characterwise. -/
def strLower (s : String) : String := ⟨s.data.map charLower⟩

/-- Whitespace test for Python str.strip. -/
def isWs (c : Char) : Bool := c == ' ' || c == '\t' || c == '\n' || c == '\r'

/-- Python str.strip: drop leading and trailing whitespace. -/
def strTrim (s : String) : String :=
  ⟨((s.data.dropWhile isWs).reverse.dropWhile isWs).reverse⟩

/-- Python s[:n] on a string. -/
def strTake (s : String) (n : ℕ) : String := ⟨s.data.take n⟩

/-- Python place_name.split(",")[0]: the text before the first comma. -/
def beforeComma (s : String) : String := ⟨s.data.takeWhile (fun c => c != ',')⟩

/-- Python ", ".join(parts). -/
def joinCommaSpace : List String → String
  | [] => ""
  | [s] => s
  | s :: rest => s ++ ", " ++ joinCommaSpace rest

/-- Python dict.get(key, default) over the literal mapping tables, with the
default supplied at the call site via Option. -/
def assocLookup (key : String) : List (String × String) → Option String
  | [] => none
  | (k, v) :: rest => if k = key then some v else assocLookup key rest

/-- Whether hay starts with pat (characterwise). -/
def charsStartWith : List Char → List Char → Bool
  | [], _ => true
  | _ :: _, [] => false
  | a :: as, b :: bs => a == b && charsStartWith as bs

/-- Whether pat occurs inside hay (Python substring containment). -/
def charsContain (pat : List Char) : List Char → Bool
  | [] => charsStartWith pat []
  | b :: t => charsStartWith pat (b :: t) || charsContain pat t

/-- The canonical output record (src/geo_gpt/models.py, class GeoLocation).
Required pydantic fields are total; Optional fields are Option. -/
structure GeoLocation where
  country : String
  country_full : String
  postal_code : String
  city : String
  state_full : Option String
  state_code : Option String
  latitude : ℚ
  longitude : ℚ
  accuracy : String
  formatted_address : Option String
  deriving Repr, DecidableEq

/-- Outcome of pycountry.countries.search_fuzzy: it may raise LookupError,
return an empty list, or return a best match (its alpha_2 code). -/
inductive FuzzyOutcome where
  | raises : FuzzyOutcome
  | noResults : FuzzyOutcome
  | found : String → FuzzyOutcome
  deriving Repr, DecidableEq

/-- Oracle for the pycountry library.  alpha2Lookup models
countries.get(alpha_2=c) returning (alpha_3, name) or nothing; alpha3Lookup
models countries.get(alpha_3=c) returning alpha_2 or nothing; fuzzy models
countries.search_fuzzy.  The geocoder wraps every use in a try/except that
also catches ImportError, so call sites take an Option Pycountry where none
models pycountry being unavailable. -/
structure Pycountry where
  alpha2Lookup : String → Option (String × String)
  alpha3Lookup : String → Option String
  fuzzy : String → FuzzyOutcome

/-- Built-in ISO3 → ISO2 table used when pycountry is unavailable
(geocoder.py, GeoCoder._iso3_to_iso2_country, the except branch). -/
def iso3Builtin : List (String × String) :=
  [("USA", "US"), ("CAN", "CA"), ("GBR", "GB"), ("FRA", "FR"), ("DEU", "DE"),
   ("JPN", "JP"), ("CHN", "CN"), ("AUS", "AU"), ("NZL", "NZ"), ("RUS", "RU")]

/-- Built-in name → ISO2 table used when pycountry is unavailable
(geocoder.py, GeoCoder._normalize_country_code, the except branch). -/
def commonCountries : List (String × String) :=
  [("united states", "US"), ("usa", "US"), ("america", "US"),
   ("canada", "CA"), ("united kingdom", "GB"), ("uk", "GB"),
   ("france", "FR"), ("germany", "DE"), ("japan", "JP"),
   ("china", "CN"), ("australia", "AU"), ("new zealand", "NZ"),
   ("russia", "RU"), ("mexico", "MX"), ("brazil", "BR"),
   ("india", "IN"), ("spain", "ES"), ("italy", "IT")]

/-- GeoCoder._iso3_to_iso2_country: with pycountry, look up alpha_3 of the
uppercased input and return its alpha_2, else return the input unchanged;
without pycountry, consult the built-in table, defaulting to the first two
characters of the input.  Note it never returns null. -/
def iso3_to_iso2_country (pyc : Option Pycountry) (iso3_code : String) : String :=
  match pyc with
  | some p =>
    match p.alpha3Lookup (strUpper iso3_code) with
    | some a2 => a2
    | none => iso3_code
  | none => (assocLookup (strUpper iso3_code) iso3Builtin).getD (strTake iso3_code 2)

/-- GeoCoder._normalize_country_code: empty input gives none; a 2-character
input is uppercased and returned; a 3-character input goes through
iso3_to_iso2_country; anything else is fuzzy-matched by pycountry (a
LookupError, like pycountry being absent, falls back to the built-in
name table). -/
def normalize_country_code (pyc : Option Pycountry) (country : String) : Option String :=
  if country = "" then none
  else if country.length = 2 then some (strUpper country)
  else if country.length = 3 then some (iso3_to_iso2_country pyc country)
  else
    match pyc with
    | some p =>
      match p.fuzzy country with
      | .found a2 => some a2
      | .noResults => none
      | .raises => assocLookup (strLower country) commonCountries
    | none => assocLookup (strLower country) commonCountries

/-- One row of a pgeocode result Series.  A field holds none where the pandas
cell is NA.  firstNA models pd.isna(result.iloc[0]), the geocoder's guard for
a not-found row. -/
structure PgRow where
  firstNA : Bool
  country_code : Option String
  state_name : Option String
  state_code : Option String
  place_name : Option String
  postal_code : Option String
  latitude : Option ℚ
  longitude : Option ℚ
  deriving Repr, DecidableEq

/-- Python str() applied to a pandas cell: an NA cell prints as the string
nan (the geocoder reads country_code without a notna check). -/
def strOfCell (c : Option String) : String :=
  match c with
  | some s => s
  | none => "nan"

/-- Truthiness of the extracted postal code in the accuracy grading:
present and non-empty. -/
def postalPresent (row : PgRow) : Prop :=
  row.postal_code.getD "" ≠ ""

instance (row : PgRow) : Decidable (postalPresent row) := by
  unfold postalPresent; infer_instance

/-- Presence of both coordinates in the accuracy grading (an `is not None`
test in the code, so a 0.0 coordinate still counts as present). -/
def coordsPresent (row : PgRow) : Prop :=
  row.latitude.isSome = true ∧ row.longitude.isSome = true

instance (row : PgRow) : Decidable (coordsPresent row) := by
  unfold coordsPresent; infer_instance

/-- GeoCoder._pgeocode_to_geolocation: convert a pgeocode row to a
GeoLocation, or none for a missing/not-found row or an empty country code.
Mirrors the source line by line: city is the text before the first comma of
place_name; accuracy is high when postal and both coordinates are present,
medium when either is, low otherwise; missing postal/city become the empty
string and missing coordinates become 0. -/
def pgeocode_to_geolocation (pyc : Option Pycountry) (result : Option PgRow) :
    Option GeoLocation :=
  match result with
  | none => none
  | some row =>
    if row.firstNA then none
    else
      let country_code := strTrim (strOfCell row.country_code)
      if country_code = "" then none
      else
        let pair : String × String :=
          match pyc with
          | some p =>
            match p.alpha2Lookup country_code with
            | some r => r
            | none => (country_code, "Unknown")
          | none => (country_code, "Unknown")
        let country_3letter := pair.1
        let country_full := pair.2
        let state_full := row.state_name
        let state_code := row.state_code
        let place_name := row.place_name
        let postal_code := row.postal_code
        let city : Option String :=
          match place_name with
          | some p => if p ≠ "" then some (beforeComma p) else none
          | none => none
        let latitude := row.latitude
        let longitude := row.longitude
        let address_parts : List String :=
          (match place_name with
           | some p => if p ≠ "" then [p] else []
           | none => []) ++
          (match state_full with
           | some s => if s ≠ "" then [s] else []
           | none => []) ++
          (if country_full ≠ "" ∧ country_full ≠ "Unknown" then [country_full] else [])
        let formatted_address : Option String :=
          if address_parts ≠ [] then some (joinCommaSpace address_parts)
          else none
        let accuracy : String :=
          if latitude.isSome ∧ longitude.isSome ∧ postal_code.getD "" ≠ "" then "high"
          else if (latitude.isSome ∧ longitude.isSome) ∨ postal_code.getD "" ≠ "" then "medium"
          else "low"
        some
          { country := country_3letter
            country_full := country_full
            postal_code := postal_code.getD ""
            city := city.getD ""
            state_full := state_full
            state_code := state_code
            latitude := latitude.getD 0
            longitude := longitude.getD 0
            accuracy := accuracy
            formatted_address := formatted_address }

/-- The fixed error-sentinel record built in the except branch of
GeoCoder._geocode_with_llm. -/
def llmErrorSentinel : GeoLocation :=
  { country := "UNK", country_full := "Unknown", postal_code := "", city := "",
    state_full := none, state_code := none, latitude := 0, longitude := 0,
    accuracy := "low", formatted_address := some "[LLM Error]" }

/-- The empty sentinel record built at the end of GeoCoder.geocode. -/
def emptySentinel : GeoLocation :=
  { country := "UNK", country_full := "Unknown", postal_code := "", city := "",
    state_full := none, state_code := none, latitude := 0, longitude := 0,
    accuracy := "low", formatted_address := none }

/-- GeoCoder._geocode_with_llm.  llmInitOk models whether _get_llm succeeds
(llm.py get_llm raises ValueError for an unsupported provider, and that call
sits outside the try block, so its failure propagates); invokeResult is the
oracle for the structured-output model call (error payload = the exception
message).  On a successful call the provenance marker is appended to
formatted_address; on a failed call the fixed error sentinel is returned. -/
def geocode_with_llm (llmInitOk : Bool) (invokeResult : Except String GeoLocation) :
    Except String GeoLocation :=
  if llmInitOk = false then .error "ValueError: Unsupported LLM provider"
  else
    match invokeResult with
    | .ok result =>
      let fa : Option String :=
        match result.formatted_address with
        | some s => if s ≠ "" then some (s ++ " [LLM]") else some "[LLM]"
        | none => some "[LLM]"
      .ok { result with formatted_address := fa }
    | .error _ => .ok llmErrorSentinel

/-- An exception escaping GeoCoder.geocode. -/
inductive GeoExc where
  | unboundLocalError : GeoExc
  | llmInitError : String → GeoExc
  deriving Repr, DecidableEq

/-- GeoCoder.geocode, the resolution orchestrator.  pgResolver is the outcome
of _geocode_with_pgeocode for the call's fixed city/state/zip arguments, as a
function of the normalized country code (that helper catches its own
exceptions and returns null on any failure, so an Option result is faithful).
The Bool paired with the returned record registers whether the fallback
resolver was invoked.  The branch structure mirrors the source exactly,
including the defect that when country normalization fails and use_llm is
false, the final `if pg_result` reads a variable that was never bound
(UnboundLocalError). -/
def geocode (pyc : Option Pycountry) (pgResolver : String → Option GeoLocation)
    (llmInitOk : Bool) (invokeResult : Except String GeoLocation)
    (country : String) (use_llm : Bool) : Except GeoExc (GeoLocation × Bool) :=
  let country_code := normalize_country_code pyc country
  let llmStep : Except GeoExc (GeoLocation × Bool) :=
    match geocode_with_llm llmInitOk invokeResult with
    | .ok l => .ok (l, true)
    | .error e => .error (.llmInitError e)
  match country_code with
  | some cc =>
    match pgResolver cc with
    | some r =>
      if r.accuracy ≠ "low" then .ok (r, false)
      else if use_llm then llmStep
      else .ok (r, false)
    | none =>
      if use_llm then llmStep
      else .ok (emptySentinel, false)
  | none =>
    if use_llm then llmStep
    else .error .unboundLocalError

/-- An argument of the distance/radius operations: a postal-code string or a
GeoLocation record. -/
inductive Loc where
  | postal : String → Loc
  | loc : GeoLocation → Loc
  deriving Repr, DecidableEq

/-- Degrees to radians (np.radians). -/
noncomputable def radians (x : ℚ) : ℝ := (x : ℝ) * Real.pi / 180

/-- GeoCoder._haversine_distance, over the reals. -/
noncomputable def haversine_distance (lat1 lon1 lat2 lon2 : ℚ) : ℝ :=
  let l1 := radians lat1
  let g1 := radians lon1
  let l2 := radians lat2
  let g2 := radians lon2
  let dlon := g2 - g1
  let dlat := l2 - l1
  let a := Real.sin (dlat / 2) ^ 2 +
    Real.cos l1 * Real.cos l2 * Real.sin (dlon / 2) ^ 2
  let c := 2 * Real.arcsin (Real.sqrt a)
  c * 6371

/-- The country code GeoCoder.calculate_distance works with: the explicit
argument if one was passed, else derived from the origin record when the
origin is a GeoLocation, else from the destination record when that is one;
the empty string stands for Python None (both are falsy at the guard). -/
def derived_cc (pyc : Option Pycountry) (origin destination : Loc)
    (country_code : Option String) : String :=
  match country_code with
  | some c => c
  | none =>
    match origin with
    | .loc g => iso3_to_iso2_country pyc g.country
    | .postal _ =>
      match destination with
      | .loc g => iso3_to_iso2_country pyc g.country
      | .postal _ => ""

/-- GeoCoder.calculate_distance.  queryDistance is the oracle for the try
block around the pgeocode GeoDistance query: some v when
float(dist.query_postal_code(origin, dest)) returns the value v, none when
anything in the try block raises.  Without a usable country code the method
raises ValueError (modelled as the error result); on a query failure it falls
back to the haversine formula only when both endpoints are records with all
four coordinates non-zero, and otherwise returns the -1.0 sentinel. -/
noncomputable def calculate_distance (pyc : Option Pycountry)
    (queryDistance : Option ℝ) (origin destination : Loc)
    (country_code : Option String) : Except String ℝ :=
  let cc := derived_cc pyc origin destination country_code
  if cc = "" then .error "ValueError: Country code must be provided"
  else
    match queryDistance with
    | some d => .ok d
    | none =>
      match origin, destination with
      | .loc o, .loc d =>
        if o.latitude ≠ 0 ∧ o.longitude ≠ 0 ∧ d.latitude ≠ 0 ∧ d.longitude ≠ 0 then
          .ok (haversine_distance o.latitude o.longitude d.latitude d.longitude)
        else .ok (-1)
      | _, _ => .ok (-1)

/-- One row of the nominatim batch lookup in find_nearby_locations, reduced
to the fields the code touches (postal_code, none for a missing or NA cell,
plus a representative descriptive field). -/
structure NomiRow where
  postal_code : Option String
  place_name : Option String
  deriving Repr, DecidableEq

/-- An entry of the find_nearby_locations result: the dataset row merged with
the computed distance. -/
structure NearbyRow where
  data : NomiRow
  distance_km : ℚ
  deriving Repr, DecidableEq

/-- The key order of the final Python sorted(result, key distance_km). -/
def nearbyLe (a b : NearbyRow) : Prop := a.distance_km ≤ b.distance_km

instance : DecidableRel nearbyLe := fun a b => by unfold nearbyLe; infer_instance

instance : IsTotal NearbyRow nearbyLe := ⟨fun a b => le_total a.distance_km b.distance_km⟩

instance : IsTrans NearbyRow nearbyLe := ⟨fun _ _ _ h1 h2 => le_trans h1 h2⟩

/-- The country code GeoCoder.find_nearby_locations works with: the
explicit argument if one was passed, else derived from the reference record
when that is a GeoLocation; the empty string stands for Python None. -/
def derived_ref_cc (pyc : Option Pycountry) (reference : Loc)
    (country_code : Option String) : String :=
  match country_code with
  | some c => c
  | none =>
    match reference with
    | .loc g => iso3_to_iso2_country pyc g.country
    | .postal _ => ""

/-- The np.where(distances <= radius_km) retention step of
find_nearby_locations: candidate codes paired with their distances, keeping
those within the radius. -/
def nearby_filtered (radius_km : ℚ) (candidates : List String) (distances : List ℚ) :
    List (String × ℚ) :=
  (candidates.zip distances).filter (fun p => p.2 ≤ radius_km)

/-- The enrichment and sort steps of find_nearby_locations: each retained
code is merged with its dataset row (an out-of-range index yields an empty
row), the queried code is substituted for a missing postal_code, and the
merged rows are sorted ascending by distance_km (Python sorted is stable,
modelled by insertion sort). -/
def nearby_rows (nearby : List (String × ℚ)) (nearby_data : List NomiRow) :
    List NearbyRow :=
  let result := nearby.enum.map (fun e =>
    let code := e.2.1
    let d := e.2.2
    let row := (nearby_data.get? e.1).getD { postal_code := none, place_name := none }
    let row :=
      if row.postal_code = none then { row with postal_code := some code }
      else row
    ({ data := row, distance_km := d } : NearbyRow))
  List.insertionSort nearbyLe result

/-- GeoCoder.find_nearby_locations.  defaultCandidates is the candidate list
obtained when the caller supplies none (the US csv, or the generated sample);
queryDistances is the oracle for the batched distance call (none = raises,
yielding an empty result); queryNomi is the oracle for the nominatim
enrichment lookup on the retained codes (none = raises, empty result). -/
def find_nearby_locations (pyc : Option Pycountry) (defaultCandidates : List String)
    (queryDistances : Option (List ℚ)) (queryNomi : Option (List NomiRow))
    (reference : Loc) (radius_km : ℚ) (country_code : Option String)
    (postal_codes : Option (List String)) : Except String (List NearbyRow) :=
  if derived_ref_cc pyc reference country_code = "" then
    .error "ValueError: Country code must be provided"
  else
    match queryDistances with
    | none => .ok []
    | some distances =>
      let nearby := nearby_filtered radius_km (postal_codes.getD defaultCandidates) distances
      if nearby = [] then .ok []
      else
        match queryNomi with
        | none => .ok []
        | some nearby_data => .ok (nearby_rows nearby nearby_data)

/-- Case-insensitive substring test, modelling the pandas
str.contains(state_name, case=False, na=False) filter for plain-text
patterns (an NA cell is handled at the call site by the empty default). -/
def containsSubstrCI (s pat : String) : Bool :=
  charsContain (strLower pat).data (strLower s).data

/-- Step 1 of GeoCoder._geocode_with_pgeocode: the direct postal-code
lookup.  postalQueryRow is the oracle for nomi.query_postal_code on the zip
code (none also covers an exception there, which the enclosing except turns
into the same null result).  A hit is usable only when the converted record
has a non-empty city and a non-zero latitude. -/
def postal_lookup_hit (pyc : Option Pycountry) (postalQueryRow : Option PgRow)
    (zip_code : String) : Option GeoLocation :=
  if zip_code ≠ "" then
    match pgeocode_to_geolocation pyc postalQueryRow with
    | some l => if l.city ≠ "" ∧ l.latitude ≠ 0 then some l else none
    | none => none
  else none

/-- The candidate narrowing of the city lookup: when a state name is given
and there are candidates, restrict to rows whose state_name contains it
(case-insensitive), keeping the unfiltered set when the filter empties. -/
def city_candidates (cityQueryRows : List PgRow) (state_name : String) : List PgRow :=
  if state_name ≠ "" ∧ cityQueryRows ≠ [] then
    let filtered :=
      cityQueryRows.filter (fun r => containsSubstrCI (r.state_name.getD "") state_name)
    if filtered ≠ [] then filtered else cityQueryRows
  else cityQueryRows

/-- Step 2 of GeoCoder._geocode_with_pgeocode: the fuzzy city lookup,
converting the first remaining candidate after the optional state filter. -/
def city_lookup_hit (pyc : Option Pycountry) (cityQueryRows : List PgRow)
    (city_name state_name : String) : Option GeoLocation :=
  if city_name ≠ "" then
    match city_candidates cityQueryRows state_name with
    | [] => none
    | r :: _ => pgeocode_to_geolocation pyc (some r)
  else none

/-- GeoCoder._geocode_with_pgeocode: no country code means null; otherwise
the postal lookup short-circuits when usable, else the city lookup runs. -/
def geocode_with_pgeocode (pyc : Option Pycountry) (postalQueryRow : Option PgRow)
    (cityQueryRows : List PgRow) (zip_code city_name state_name : String)
    (country_code : Option String) : Option GeoLocation :=
  match country_code with
  | none => none
  | some cc =>
    if cc = "" then none
    else
      match postal_lookup_hit pyc postalQueryRow zip_code with
      | some l => some l
      | none => city_lookup_hit pyc cityQueryRows city_name state_name

/-- GeoCoder.geocode with the deterministic resolver instantiated to its
real implementation (geocode_with_pgeocode over the dataset oracles), as the
source composes them. -/
def geocode_full (pyc : Option Pycountry) (postalQueryRow : Option PgRow)
    (cityQueryRows : List PgRow) (zip_code city_name state_name : String)
    (llmInitOk : Bool) (invokeResult : Except String GeoLocation)
    (country : String) (use_llm : Bool) : Except GeoExc (GeoLocation × Bool) :=
  geocode pyc
    (fun cc => geocode_with_pgeocode pyc postalQueryRow cityQueryRows
      zip_code city_name state_name (some cc))
    llmInitOk invokeResult country use_llm

/-- A pycountry oracle that knows no country at all: every lookup misses and
every fuzzy search raises LookupError. -/
def pycEmpty : Pycountry :=
  { alpha2Lookup := fun _ => none
    alpha3Lookup := fun _ => none
    fuzzy := fun _ => FuzzyOutcome.raises }

/-- Concrete dataset row used to exercise the short-circuit path. -/
def c2Row : PgRow :=
  { firstNA := false, country_code := some "US", state_name := some "California",
    state_code := some "CA", place_name := some "Beverly Hills",
    postal_code := some "90210", latitude := some 34, longitude := some (-118) }

/-- The record the conversion produces from c2Row (pycountry unavailable). -/
def c2Record : GeoLocation :=
  { country := "US", country_full := "Unknown", postal_code := "90210",
    city := "Beverly Hills", state_full := some "California",
    state_code := some "CA", latitude := 34, longitude := -118,
    accuracy := "high", formatted_address := some "Beverly Hills, California" }

/-- Concrete dataset row used to exercise the accuracy grading. -/
def c5Row : PgRow :=
  { firstNA := false, country_code := some "US", state_name := some "Illinois",
    state_code := some "IL", place_name := some "Springfield",
    postal_code := some "62704", latitude := some 39, longitude := some (-89) }

/-- The record the conversion produces from c5Row (pycountry unavailable). -/
def c5Record : GeoLocation :=
  { country := "US", country_full := "Unknown", postal_code := "62704",
    city := "Springfield", state_full := some "Illinois",
    state_code := some "IL", latitude := 39, longitude := -89,
    accuracy := "high", formatted_address := some "Springfield, Illinois" }

/-- Two distinct coordinate pairs at latitude 90 with non-zero longitudes:
the haversine fallback accepts them (all four coordinates non-zero) and
computes distance 0 although they are not identical. -/
def c6Origin : GeoLocation :=
  { country := "USA", country_full := "United States", postal_code := "",
    city := "", state_full := none, state_code := none, latitude := 90,
    longitude := 50, accuracy := "low", formatted_address := none }

/-- Companion point to c6Origin with a different longitude. -/
def c6Dest : GeoLocation :=
  { country := "USA", country_full := "United States", postal_code := "",
    city := "", state_full := none, state_code := none, latitude := 90,
    longitude := 60, accuracy := "low", formatted_address := none }

/-- Generic origin record with non-zero coordinates for the fallback witness. -/
def c6WOrigin : GeoLocation :=
  { country := "USA", country_full := "United States", postal_code := "",
    city := "", state_full := none, state_code := none, latitude := 10,
    longitude := 20, accuracy := "low", formatted_address := none }

/-- Generic destination record with non-zero coordinates for the fallback
witness. -/
def c6WDest : GeoLocation :=
  { country := "USA", country_full := "United States", postal_code := "",
    city := "", state_full := none, state_code := none, latitude := 30,
    longitude := 40, accuracy := "low", formatted_address := none }

/-- Dataset row with every optional cell NA, for the record-completeness
witness. -/
def c9Row : PgRow :=
  { firstNA := false, country_code := some "US", state_name := none,
    state_code := none, place_name := none, postal_code := none,
    latitude := none, longitude := none }

/-- The record the conversion produces from c9Row: every missing source
value becomes the documented empty value. -/
def c9Record : GeoLocation :=
  { country := "US", country_full := "Unknown", postal_code := "", city := "",
    state_full := none, state_code := none, latitude := 0, longitude := 0,
    accuracy := "low", formatted_address := none }

/-- Low-accuracy record used to exhibit the useFallback=false branches of
the orchestrator. -/
def c1LowRecord : GeoLocation :=
  { country := "US", country_full := "Unknown", postal_code := "10001", city := "",
    state_full := none, state_code := none, latitude := 0, longitude := 0,
    accuracy := "low", formatted_address := none }

/-- C1: the claim states that every useFallback=false call returns a record
(the deterministic one when it exists, else the empty UNK/low sentinel),
including when the country cannot be normalized.  The code instead raises
UnboundLocalError in that last case: when normalization fails the
deterministic branch never binds pg_result, and the final fallthrough reads
it.  This theorem evaluates the embedded orchestrator: at the failing input
(unnormalizable country, use_llm false) it raises, while the two
neighbouring cases the claim describes (country normalized, with and
without a deterministic record) behave as claimed. -/
theorem c1_unbound_pg_result :
    geocode none (fun _ => none) true (.error "x") "" false
      = .error .unboundLocalError ∧
    geocode none (fun _ => none) true (.error "x") "US" false
      = .ok (emptySentinel, false) ∧
    geocode none (fun _ => some c1LowRecord) true (.error "x") "US" false
      = .ok (c1LowRecord, false) := ⟨rfl, rfl, rfl⟩

/-- C3: whenever the structured-output model call fails (whatever the
exception message), the fallback resolver returns the fixed error-sentinel
record, with country UNK, full name Unknown, every other field empty or
zero, accuracy low and formatted_address the LLM-error marker, and no
exception reaches the caller. -/
theorem c3_llm_failure_sentinel : ∀ msg : String,
    geocode_with_llm true (.error msg) = .ok llmErrorSentinel ∧
    llmErrorSentinel.country = "UNK" ∧ llmErrorSentinel.country_full = "Unknown" ∧
    llmErrorSentinel.postal_code = "" ∧ llmErrorSentinel.city = "" ∧
    llmErrorSentinel.state_full = none ∧ llmErrorSentinel.state_code = none ∧
    llmErrorSentinel.latitude = 0 ∧ llmErrorSentinel.longitude = 0 ∧
    llmErrorSentinel.accuracy = "low" ∧
    llmErrorSentinel.formatted_address = some "[LLM Error]" :=
  fun _ => ⟨rfl, rfl, rfl, rfl, rfl, rfl, rfl, rfl, rfl, rfl, rfl⟩

/-- C4 counterexample: the claim says a 2-character input yields a canonical
code only when it resolves to a known country (else null), and a
3-character input whose lookup-table and built-in translations both fail
yields null.  Against a pycountry oracle that knows no country at all, the
code still returns ZZ for zz; a failing 3-letter lookup returns the input
unchanged (pycountry present) or its first two characters (pycountry
absent) — never null. -/
theorem c4_counterexample :
    normalize_country_code (some pycEmpty) "zz" = some "ZZ" ∧
    normalize_country_code (some pycEmpty) "zzz" = some "zzz" ∧
    normalize_country_code none "zzz" = some "zz" := ⟨rfl, rfl, rfl⟩

/-- C4 amended: a 2-character input is uppercased and returned without any
known-country validation; a 3-character input whose translations fail is
returned unchanged when the lookup table is consulted, and truncated to its
first two characters when only the built-in table is available — in every
case non-null. -/
theorem c4_normalizer_amended : ∀ (pyc : Option Pycountry) (c : String),
    (c.length = 2 → normalize_country_code pyc c = some (strUpper c)) ∧
    (c.length = 3 →
      (∀ p : Pycountry, pyc = some p → p.alpha3Lookup (strUpper c) = none →
        normalize_country_code pyc c = some c) ∧
      (pyc = none → assocLookup (strUpper c) iso3Builtin = none →
        normalize_country_code pyc c = some (strTake c 2))) := by
  intro pyc c
  constructor
  · intro h2
    have hne : c ≠ "" := fun he => by subst he; exact absurd h2 (by decide)
    simp [normalize_country_code, hne, h2]
  · intro h3
    have hne : c ≠ "" := fun he => by subst he; exact absurd h3 (by decide)
    have hn2 : c.length ≠ 2 := by rw [h3]; decide
    constructor
    · intro p hp hnone
      subst hp
      simp [normalize_country_code, iso3_to_iso2_country, hne, hn2, h3, hnone]
    · intro hp hnone
      subst hp
      simp [normalize_country_code, iso3_to_iso2_country, hne, hn2, h3, hnone]

/-- C4 witness: the amended statement at concrete inputs. -/
theorem c4_witness :
    normalize_country_code (some pycEmpty) "qq" = some "QQ" ∧
    normalize_country_code none "qqq" = some "qq" := by
  constructor
  · exact (c4_normalizer_amended (some pycEmpty) "qq").1 (by decide)
  · exact ((c4_normalizer_amended none "qqq").2 (by decide)).2 rfl rfl

/-- C7: distance and radius search with no resolvable country code raise
ValueError, as the claim says; but this is not the only hard-error case of
the public interface, because resolve (geocode) also raises, through the
unbound pg_result defect, when the country cannot be normalized and the
fallback is disabled. -/
theorem c7_missing_country_errors :
    calculate_distance none none (.postal "10001") (.postal "90210") none
      = .error "ValueError: Country code must be provided" ∧
    find_nearby_locations none [] none none (.postal "10001") 50 none none
      = .error "ValueError: Country code must be provided" ∧
    geocode none (fun _ => none) true (.error "x") "Atlantis" false
      = .error .unboundLocalError := ⟨rfl, rfl, rfl⟩

/-- C2: whenever the country normalizes and the deterministic resolver
returns a record whose accuracy is not low, the orchestrator returns that
record immediately and the fallback resolver is never invoked (the Bool
component registers fallback invocation), regardless of use_llm. -/
theorem c2_short_circuit :
    ∀ (pyc : Option Pycountry) (postalQueryRow : Option PgRow) (cityQueryRows : List PgRow)
      (zip_code city_name state_name : String) (llmInitOk : Bool)
      (invokeResult : Except String GeoLocation) (country : String) (use_llm : Bool)
      (cc : String) (r : GeoLocation),
      normalize_country_code pyc country = some cc →
      geocode_with_pgeocode pyc postalQueryRow cityQueryRows zip_code city_name state_name
        (some cc) = some r →
      r.accuracy ≠ "low" →
      geocode_full pyc postalQueryRow cityQueryRows zip_code city_name state_name
        llmInitOk invokeResult country use_llm = .ok (r, false) := by
  intro pyc pq cq z c s init inv country u cc r hnorm hpg hacc
  simp only [geocode_full, geocode, hnorm, hpg]
  simp [hacc]

/-- C2 witness: a full-data postal row short-circuits with its high-accuracy
record even though the model oracle would error, and the fallback flag
stays false. -/
theorem c2_witness :
    geocode_full none (some c2Row) [] "90210" "" "" true (.error "boom") "US" true
      = .ok (c2Record, false) :=
  c2_short_circuit none (some c2Row) [] "90210" "" "" true (.error "boom") "US" true
    "US" c2Record rfl rfl (by decide)

/-- C5: for every dataset row the conversion accepts, accuracy is high
exactly when both coordinates and a non-empty postal code are present,
medium exactly when one of the two is present but not both, and low exactly
when neither is. -/
theorem c5_accuracy_grading :
    ∀ (pyc : Option Pycountry) (row : PgRow) (r : GeoLocation),
      pgeocode_to_geolocation pyc (some row) = some r →
      ((r.accuracy = "high" ↔ coordsPresent row ∧ postalPresent row) ∧
       (r.accuracy = "medium" ↔
         (coordsPresent row ∨ postalPresent row) ∧ ¬(coordsPresent row ∧ postalPresent row)) ∧
       (r.accuracy = "low" ↔ ¬coordsPresent row ∧ ¬postalPresent row)) := by
  intro pyc row r h
  simp only [pgeocode_to_geolocation] at h
  by_cases hna : row.firstNA
  · simp [hna] at h
  · rw [if_neg hna] at h
    by_cases hcc : strTrim (strOfCell row.country_code) = ""
    · simp [hcc] at h
    · simp only [if_neg hcc] at h
      rw [Option.some_inj] at h
      subst h
      unfold coordsPresent postalPresent
      by_cases hlat : row.latitude.isSome = true <;>
        by_cases hlon : row.longitude.isSome = true <;>
          by_cases hpost : row.postal_code.getD "" = "" <;>
            simp [hlat, hlon, hpost]

/-- C5 witness: a row with postal code and both coordinates grades high. -/
theorem c5_witness :
    pgeocode_to_geolocation none (some c5Row) = some c5Record ∧
    c5Record.accuracy = "high" ∧ coordsPresent c5Row ∧ postalPresent c5Row := by
  refine ⟨rfl, ?_, by decide, by decide⟩
  exact ((c5_accuracy_grading none c5Row c5Record rfl).1).mpr ⟨by decide, by decide⟩

/-- Nonnegativity of the haversine great-circle formula: the sentinel -1.0
can never collide with a fallback distance. -/
theorem haversine_distance_nonneg : ∀ a b c d : ℚ, 0 ≤ haversine_distance a b c d := by
  intro a b c d
  simp only [haversine_distance]
  refine mul_nonneg (mul_nonneg (by norm_num) ?_) (by norm_num)
  exact Real.arcsin_nonneg.mpr (Real.sqrt_nonneg _)

/-- The haversine formula on identical coordinate pairs gives zero. -/
theorem haversine_distance_self : ∀ a b : ℚ, haversine_distance a b a b = 0 := by
  intro a b
  simp [haversine_distance]

/-- Conversion of 90 degrees to radians. -/
theorem radians_ninety : radians 90 = Real.pi / 2 := by
  unfold radians
  push_cast
  ring

/-- At latitude 90 the cos factor vanishes, so two distinct longitudes give
haversine distance zero. -/
theorem haversine_distance_pole : haversine_distance 90 50 90 60 = 0 := by
  simp [haversine_distance, radians_ninety, Real.cos_pi_div_two]

/-- C6 counterexample: the claim says a valid 0.0 distance occurs only for
identical coordinates.  With the primary query failing, the fallback
accepts the two pole points (all four coordinates non-zero), computes
haversine distance 0.0, and yet the coordinate pairs differ. -/
theorem c6_zero_distance_counterexample :
    calculate_distance none none (.loc c6Origin) (.loc c6Dest) (some "US") = .ok 0 ∧
    c6Origin.longitude ≠ c6Dest.longitude := by
  constructor
  · have h : calculate_distance none none (.loc c6Origin) (.loc c6Dest) (some "US")
        = .ok (haversine_distance 90 50 90 60) := by
      simp [calculate_distance, derived_cc, c6Origin, c6Dest]
    rw [h, haversine_distance_pole]
  · decide

/-- C6 amended: on a primary-query failure the haversine fallback is used
exactly when both endpoints are records with all four coordinates non-zero,
and otherwise the -1.0 sentinel is returned; the sentinel is distinguishable
from every fallback value because the haversine formula is nonnegative, and
identical coordinates give 0.0 (though 0.0 can also arise for distinct
coordinate pairs, such as two points at latitude 90). -/
theorem c6_distance_fallback :
    ∀ (pyc : Option Pycountry) (o d : GeoLocation) (cc : String), cc ≠ "" →
    ((o.latitude ≠ 0 ∧ o.longitude ≠ 0 ∧ d.latitude ≠ 0 ∧ d.longitude ≠ 0) →
      calculate_distance pyc none (.loc o) (.loc d) (some cc)
        = .ok (haversine_distance o.latitude o.longitude d.latitude d.longitude)) ∧
    (¬(o.latitude ≠ 0 ∧ o.longitude ≠ 0 ∧ d.latitude ≠ 0 ∧ d.longitude ≠ 0) →
      calculate_distance pyc none (.loc o) (.loc d) (some cc) = .ok (-1)) ∧
    (∀ s : String, calculate_distance pyc none (.postal s) (.loc d) (some cc) = .ok (-1)) ∧
    (∀ s : String, calculate_distance pyc none (.loc o) (.postal s) (some cc) = .ok (-1)) ∧
    (∀ s t : String, calculate_distance pyc none (.postal s) (.postal t) (some cc)
      = .ok (-1)) ∧
    (∀ a b : ℚ, haversine_distance a b a b = 0) ∧
    (∀ a b c e : ℚ, 0 ≤ haversine_distance a b c e) := by
  intro pyc o d cc hcc
  refine ⟨?_, ?_, ?_, ?_, ?_, haversine_distance_self, haversine_distance_nonneg⟩
  · intro hcond
    simp [calculate_distance, derived_cc, hcc, hcond]
  · intro hcond
    simp [calculate_distance, derived_cc, hcc, hcond]
  · intro s
    simp [calculate_distance, derived_cc, hcc]
  · intro s
    simp [calculate_distance, derived_cc, hcc]
  · intro s t
    simp [calculate_distance, derived_cc, hcc]

/-- C6 witness: the fallback branch at concrete non-zero coordinates, and a
zero distance for an identical concrete pair. -/
theorem c6_witness :
    calculate_distance none none (.loc c6WOrigin) (.loc c6WDest) (some "US")
      = .ok (haversine_distance 10 20 30 40) ∧
    haversine_distance 10 20 10 20 = 0 := by
  have h := c6_distance_fallback none c6WOrigin c6WDest "US" (by decide)
  exact ⟨h.1 (by decide), h.2.2.2.2.2.1 10 20⟩

/-- C8: every successful radius search returns a sequence sorted
non-decreasing in distance_km, with every entry within the requested
radius. -/
theorem c8_sorted_within_radius :
    ∀ (pyc : Option Pycountry) (defaultCandidates : List String)
      (queryDistances : Option (List ℚ)) (queryNomi : Option (List NomiRow))
      (reference : Loc) (radius_km : ℚ) (country_code : Option String)
      (postal_codes : Option (List String)) (rows : List NearbyRow),
      find_nearby_locations pyc defaultCandidates queryDistances queryNomi reference
        radius_km country_code postal_codes = .ok rows →
      rows.Pairwise nearbyLe ∧ ∀ x ∈ rows, x.distance_km ≤ radius_km := by
  intro pyc dc qd qn ref radius cc pcs rows h
  unfold find_nearby_locations at h
  by_cases hcc : derived_ref_cc pyc ref cc = ""
  · rw [if_pos hcc] at h
    exact Except.noConfusion h
  · rw [if_neg hcc] at h
    cases qd with
    | none =>
      have h2 : (Except.ok [] : Except String (List NearbyRow)) = Except.ok rows := h
      injection h2 with h3
      subst h3
      exact ⟨List.Pairwise.nil, by simp⟩
    | some distances =>
      cases qn with
      | none =>
        have h2 :
            (if nearby_filtered radius (pcs.getD dc) distances = [] then
              (Except.ok [] : Except String (List NearbyRow))
            else Except.ok []) = Except.ok rows := h
        have h3 : rows = [] := by
          by_cases hnb : nearby_filtered radius (pcs.getD dc) distances = []
          · rw [if_pos hnb] at h2
            exact (Except.ok.inj h2).symm
          · rw [if_neg hnb] at h2
            exact (Except.ok.inj h2).symm
        subst h3
        exact ⟨List.Pairwise.nil, by simp⟩
      | some nearby_data =>
        have h2 :
            (if nearby_filtered radius (pcs.getD dc) distances = [] then
              (Except.ok [] : Except String (List NearbyRow))
            else
              Except.ok (nearby_rows (nearby_filtered radius (pcs.getD dc) distances)
                nearby_data)) = Except.ok rows := h
        by_cases hnb : nearby_filtered radius (pcs.getD dc) distances = []
        · rw [if_pos hnb] at h2
          injection h2 with h3
          subst h3
          exact ⟨List.Pairwise.nil, by simp⟩
        · rw [if_neg hnb] at h2
          injection h2 with h4
          subst h4
          constructor
          · unfold nearby_rows
            exact List.sorted_insertionSort nearbyLe _
          · intro x hx
            unfold nearby_rows at hx
            have hx2 := (List.perm_insertionSort nearbyLe _).mem_iff.mp hx
            rcases List.mem_map.mp hx2 with ⟨e, he, rfl⟩
            have hmem := List.snd_mem_of_mem_enum he
            unfold nearby_filtered at hmem
            have hfil := List.of_mem_filter hmem
            exact of_decide_eq_true hfil

/-- C8 witness: a concrete search over three candidates keeps the two
within radius, sorted ascending by distance. -/
theorem c8_witness :
    ∃ rows : List NearbyRow,
      find_nearby_locations none [] (some [3, 1, 100])
        (some [{ postal_code := some "10001", place_name := some "A" },
               { postal_code := none, place_name := some "B" }])
        (.postal "10001") 50 (some "US") (some ["10001", "10002", "10003"]) = .ok rows ∧
      rows.Pairwise nearbyLe ∧ ∀ x ∈ rows, x.distance_km ≤ 50 :=
  ⟨_, rfl, c8_sorted_within_radius none [] (some [3, 1, 100])
    (some [{ postal_code := some "10001", place_name := some "A" },
           { postal_code := none, place_name := some "B" }])
    (.postal "10001") 50 (some "US") (some ["10001", "10002", "10003"]) _ rfl⟩

/-- C10: whenever the primary dataset query returns a value without raising,
calculate_distance returns exactly that value, with no validity check (so
any non-distance value the dataset hands back is passed through), and an
-1.0 result can arise from a returned value only when that value itself was
-1.0 — the failure sentinel is produced only on the raising path. -/
theorem c10_raw_distance_passthrough :
    ∀ (pyc : Option Pycountry) (v : ℝ) (origin destination : Loc)
      (country_code : Option String),
      derived_cc pyc origin destination country_code ≠ "" →
      calculate_distance pyc (some v) origin destination country_code = .ok v ∧
      (∀ qd : Option ℝ,
        calculate_distance pyc qd origin destination country_code = .ok (-1) →
          qd = none ∨ qd = some (-1)) := by
  intro pyc v o d cc hcc
  have hpass : ∀ w : ℝ, calculate_distance pyc (some w) o d cc = .ok w := by
    intro w
    simp [calculate_distance, hcc]
  refine ⟨hpass v, ?_⟩
  intro qd h
  cases qd with
  | none => exact Or.inl rfl
  | some w =>
    rw [hpass w] at h
    simp only [Except.ok.injEq] at h
    exact Or.inr (by rw [h])

/-- C10 witness: a concrete returned value is passed through unchanged. -/
theorem c10_witness :
    calculate_distance none (some 5) (.postal "10001") (.postal "90210") (some "US")
      = .ok 5 :=
  (c10_raw_distance_passthrough none 5 (.postal "10001") (.postal "90210") (some "US")
    (by decide)).1

/-- A usable postal hit is always an output of the row conversion. -/
theorem postal_lookup_hit_provenance :
    ∀ (pyc : Option Pycountry) (pq : Option PgRow) (z : String) (l : GeoLocation),
      postal_lookup_hit pyc pq z = some l →
      ∃ row : PgRow, pgeocode_to_geolocation pyc (some row) = some l := by
  intro pyc pq z l h
  unfold postal_lookup_hit at h
  by_cases hz : z ≠ ""
  · rw [if_pos hz] at h
    cases pq with
    | none =>
      have h2 : (none : Option GeoLocation) = some l := h
      exact Option.noConfusion h2
    | some row =>
      cases hconv : pgeocode_to_geolocation pyc (some row) with
      | none =>
        rw [hconv] at h
        have h2 : (none : Option GeoLocation) = some l := h
        exact Option.noConfusion h2
      | some l0 =>
        rw [hconv] at h
        have h2 : (if l0.city ≠ "" ∧ l0.latitude ≠ 0 then some l0 else none) = some l := h
        by_cases hcond : l0.city ≠ "" ∧ l0.latitude ≠ 0
        · rw [if_pos hcond] at h2
          exact ⟨row, hconv.trans h2⟩
        · rw [if_neg hcond] at h2
          exact Option.noConfusion h2
  · rw [if_neg hz] at h
    exact Option.noConfusion h

/-- A city hit is always an output of the row conversion. -/
theorem city_lookup_hit_provenance :
    ∀ (pyc : Option Pycountry) (cq : List PgRow) (c s : String) (l : GeoLocation),
      city_lookup_hit pyc cq c s = some l →
      ∃ row : PgRow, pgeocode_to_geolocation pyc (some row) = some l := by
  intro pyc cq c s l h
  unfold city_lookup_hit at h
  by_cases hc : c ≠ ""
  · rw [if_pos hc] at h
    cases hL : city_candidates cq s with
    | nil =>
      rw [hL] at h
      have h2 : (none : Option GeoLocation) = some l := h
      exact Option.noConfusion h2
    | cons r rest =>
      rw [hL] at h
      have h2 : pgeocode_to_geolocation pyc (some r) = some l := h
      exact ⟨r, h2⟩
  · rw [if_neg hc] at h
    exact Option.noConfusion h

/-- Every record the deterministic resolver returns is an output of the row
conversion. -/
theorem geocode_with_pgeocode_provenance :
    ∀ (pyc : Option Pycountry) (pq : Option PgRow) (cq : List PgRow)
      (z c s : String) (cc : Option String) (l : GeoLocation),
      geocode_with_pgeocode pyc pq cq z c s cc = some l →
      ∃ row : PgRow, pgeocode_to_geolocation pyc (some row) = some l := by
  intro pyc pq cq z c s cc l h
  unfold geocode_with_pgeocode at h
  cases cc with
  | none => exact Option.noConfusion h
  | some v =>
    have h2 :
        (if v = "" then none
         else
           match postal_lookup_hit pyc pq z with
           | some l => some l
           | none => city_lookup_hit pyc cq c s) = some l := h
    by_cases hv : v = ""
    · rw [if_pos hv] at h2
      exact Option.noConfusion h2
    · rw [if_neg hv] at h2
      cases hph : postal_lookup_hit pyc pq z with
      | some l0 =>
        rw [hph] at h2
        have h3 : some l0 = some l := h2
        rw [Option.some_inj] at h3
        subst h3
        exact postal_lookup_hit_provenance pyc pq z l0 hph
      | none =>
        rw [hph] at h2
        have h3 : city_lookup_hit pyc cq c s = some l := h2
        exact city_lookup_hit_provenance pyc cq c s l h3

/-- Inversion of the fallback step of the orchestrator: when it produces a
record, that record came from geocode_with_llm. -/
theorem llm_step_inversion :
    ∀ (init : Bool) (inv : Except String GeoLocation) (r : GeoLocation) (b : Bool),
      (match geocode_with_llm init inv with
        | Except.ok l => (Except.ok (l, true) : Except GeoExc (GeoLocation × Bool))
        | Except.error e => Except.error (GeoExc.llmInitError e)) = Except.ok (r, b) →
      geocode_with_llm init inv = Except.ok r := by
  intro init inv r b h
  cases hl : geocode_with_llm init inv with
  | ok lrec =>
    rw [hl] at h
    have h2 : (Except.ok (lrec, true) : Except GeoExc (GeoLocation × Bool))
        = Except.ok (r, b) := h
    injection h2 with h3
    injection h3 with h4 h5
    subst h4
    rfl
  | error e =>
    rw [hl] at h
    exact Except.noConfusion h

/-- C9: every record the resolver produces is fully constructed with
well-defined empty values: the empty sentinel carries UNK/Unknown, empty
strings, zero coordinates and accuracy low; the row conversion replaces
every missing source value by the empty string or zero and always assigns
one of the three accuracy grades; and every record the composed orchestrator
returns is either a fallback-resolver output, the empty sentinel, or a row
conversion output — no other construction site exists. -/
theorem c9_record_completeness :
    (emptySentinel.country = "UNK" ∧ emptySentinel.country_full = "Unknown" ∧
     emptySentinel.postal_code = "" ∧ emptySentinel.city = "" ∧
     emptySentinel.latitude = 0 ∧ emptySentinel.longitude = 0 ∧
     emptySentinel.accuracy = "low") ∧
    (∀ (pyc : Option Pycountry) (row : PgRow) (r : GeoLocation),
      pgeocode_to_geolocation pyc (some row) = some r →
      (row.postal_code = none → r.postal_code = "") ∧
      (row.place_name = none → r.city = "") ∧
      (row.latitude = none → r.latitude = 0) ∧
      (row.longitude = none → r.longitude = 0) ∧
      (r.accuracy = "high" ∨ r.accuracy = "medium" ∨ r.accuracy = "low")) ∧
    (∀ (pyc : Option Pycountry) (pq : Option PgRow) (cq : List PgRow)
      (z c s : String) (init : Bool) (inv : Except String GeoLocation)
      (country : String) (u : Bool) (r : GeoLocation) (called : Bool),
      geocode_full pyc pq cq z c s init inv country u = .ok (r, called) →
      geocode_with_llm init inv = .ok r ∨ r = emptySentinel ∨
      ∃ row : PgRow, pgeocode_to_geolocation pyc (some row) = some r) := by
  refine ⟨⟨rfl, rfl, rfl, rfl, rfl, rfl, rfl⟩, ?_, ?_⟩
  · intro pyc row r h
    simp only [pgeocode_to_geolocation] at h
    by_cases hna : row.firstNA
    · simp [hna] at h
    · rw [if_neg hna] at h
      by_cases hcc : strTrim (strOfCell row.country_code) = ""
      · simp [hcc] at h
      · simp only [if_neg hcc] at h
        rw [Option.some_inj] at h
        subst h
        refine ⟨fun hp => by simp [hp], fun hp => by simp [hp], fun hp => by simp [hp],
          fun hp => by simp [hp], ?_⟩
        by_cases h1 : row.latitude.isSome = true ∧ row.longitude.isSome = true ∧
            ¬row.postal_code.getD "" = ""
        · exact Or.inl (by simp [h1])
        · by_cases h2 : (row.latitude.isSome = true ∧ row.longitude.isSome = true) ∨
              ¬row.postal_code.getD "" = ""
          · exact Or.inr (Or.inl (by simp [h1, h2]))
          · exact Or.inr (Or.inr (by simp [h1, h2]))
  · intro pyc pq cq z c s init inv country u r called h
    simp only [geocode_full, geocode] at h
    cases hn : normalize_country_code pyc country with
    | none =>
      simp only [hn] at h
      cases u with
      | false =>
        have h2 : (Except.error GeoExc.unboundLocalError :
            Except GeoExc (GeoLocation × Bool)) = Except.ok (r, called) := h
        exact Except.noConfusion h2
      | true =>
        have h2 :
            (match geocode_with_llm init inv with
              | Except.ok l => (Except.ok (l, true) : Except GeoExc (GeoLocation × Bool))
              | Except.error e => Except.error (GeoExc.llmInitError e))
              = Except.ok (r, called) := h
        exact Or.inl (llm_step_inversion init inv r called h2)
    | some cc2 =>
      simp only [hn] at h
      cases hres : geocode_with_pgeocode pyc pq cq z c s (some cc2) with
      | some prec =>
        simp only [hres] at h
        by_cases hacc : prec.accuracy ≠ "low"
        · rw [if_pos hacc] at h
          have h3 : (Except.ok (prec, false) : Except GeoExc (GeoLocation × Bool))
              = Except.ok (r, called) := h
          injection h3 with h4
          injection h4 with h5 h6
          subst h5
          exact Or.inr (Or.inr
            (geocode_with_pgeocode_provenance pyc pq cq z c s (some cc2) prec hres))
        · rw [if_neg hacc] at h
          cases u with
          | true =>
            have h2 :
                (match geocode_with_llm init inv with
                  | Except.ok l =>
                    (Except.ok (l, true) : Except GeoExc (GeoLocation × Bool))
                  | Except.error e => Except.error (GeoExc.llmInitError e))
                  = Except.ok (r, called) := h
            exact Or.inl (llm_step_inversion init inv r called h2)
          | false =>
            have h3 : (Except.ok (prec, false) : Except GeoExc (GeoLocation × Bool))
                = Except.ok (r, called) := h
            injection h3 with h4
            injection h4 with h5 h6
            subst h5
            exact Or.inr (Or.inr
              (geocode_with_pgeocode_provenance pyc pq cq z c s (some cc2) prec hres))
      | none =>
        simp only [hres] at h
        cases u with
        | true =>
          have h2 :
              (match geocode_with_llm init inv with
                | Except.ok l => (Except.ok (l, true) : Except GeoExc (GeoLocation × Bool))
                | Except.error e => Except.error (GeoExc.llmInitError e))
                = Except.ok (r, called) := h
          exact Or.inl (llm_step_inversion init inv r called h2)
        | false =>
          have h3 : (Except.ok (emptySentinel, false) : Except GeoExc (GeoLocation × Bool))
              = Except.ok (r, called) := h
          injection h3 with h4
          injection h4 with h5 h6
          subst h5
          exact Or.inr (Or.inl rfl)

/-- C9 witness: the conversion of a row with every optional cell missing
yields the fully defaulted record. -/
theorem c9_witness :
    pgeocode_to_geolocation none (some c9Row) = some c9Record ∧
    c9Record.postal_code = "" ∧ c9Record.city = "" ∧ c9Record.latitude = 0 ∧
    c9Record.longitude = 0 ∧ c9Record.accuracy = "low" := by
  have h := c9_record_completeness.2.1 none c9Row c9Record rfl
  exact ⟨rfl, h.1 rfl, h.2.1 rfl, h.2.2.1 rfl, h.2.2.2.1 rfl,
    by
      rcases h.2.2.2.2 with h5 | h5 | h5 <;> first
        | exact h5
        | exact absurd h5 (by decide)⟩

end GeoGpt
